import Mathlib

/-!
# Verification of the Chaser hybrid signal/return pipeline (src/MV1.py)

Shallow embedding of the core dataframe pipeline of `MV1.py`.

Modelling conventions:
* A trading date is a `Nat` encoded as `year * 1000 + ordinal-day`, so the
  `DatetimeIndex.year` accessor of pandas becomes division by 1000.  Dates
  in the input series are given in increasing order, as the data source
  delivers them.
* A float `NaN` is modelled as `Option.none`; defined floats are exact
  rationals `ℚ`.  The downloaded benchmark series may contain `NaN`
  values (`List (Date × Option ℚ)`); the leveraged-instrument price
  series are modelled `NaN`-free (`List (Date × ℚ)`) — their gaps are
  missing *dates*, which is what the splicing logic is about.
* Each dataframe column becomes either a field of a row structure or an
  indexed accessor `Nat → Option ℚ` over the benchmark's positional index.
* `numpy` comparisons with `NaN` yield `False`; pandas `cumprod` is
  `skipna=True`: a `NaN` entry yields `NaN` at that position only and the
  running product continues past it unchanged.
-/

abbrev Date := Nat

/-- `DatetimeIndex.year` for the `year * 1000 + ordinal` date encoding. -/
def yearOf (d : Date) : Nat := d / 1000

-- ==========================================
-- 1. CONFIGURATION (MV1.py lines 13-21)
-- ==========================================

def SMA_PERIOD : Nat := 300

def START_CAPITAL : ℚ := 10000

def FIXED_RISK_FREE_RATE : ℚ := 4 / 100

def BROKER_SPREAD : ℚ := (5 / 1000) / 252

def DAILY_EXPENSE : ℚ := (11 / 1000) / 252

/-- `df['RiskFree_Rate'] = FIXED_RISK_FREE_RATE / 252` (line 64). -/
def riskFreeDaily : ℚ := FIXED_RISK_FREE_RATE / 252

-- ==========================================
-- 2. ROBUST DATA ENGINE (fetch_hybrid_data)
-- ==========================================

/-- `spy_price.dropna()` (line 57): remove the rows whose value is `NaN`. -/
def dropna (s : List (Date × Option ℚ)) : List (Date × ℚ) :=
  s.filterMap (fun e => e.2.map (fun v => (e.1, v)))

/-- `df['SMA'] = df['Price'].rolling(window=w).mean()` at row `i` (line 67).
With pandas' default `min_periods = w` the mean is defined only once the
window is full, i.e. when `w ≤ i + 1`. -/
def smaAt (w : Nat) (p : List ℚ) (i : Nat) : Option ℚ :=
  if w ≤ i + 1 ∧ i < p.length then
    some (((p.take (i + 1)).drop (i + 1 - w)).sum / w)
  else none

/-- `df['Price'].shift(1)` at row `i`. -/
def prevPrice (p : List ℚ) (i : Nat) : Option ℚ :=
  match i with
  | 0 => none
  | Nat.succ j => p.get? j

/-- `df['SMA'].shift(1)` at row `i`. -/
def prevSMA (w : Nat) (p : List ℚ) (i : Nat) : Option ℚ :=
  match i with
  | 0 => none
  | Nat.succ j => smaAt w p j

/-- The numpy `>` on possibly-`NaN` operands: any comparison with `NaN`
is `False`. -/
def gtOpt (a b : Option ℚ) : Bool :=
  match a, b with
  | some x, some y => decide (y < x)
  | _, _ => false

/-- `df['Signal'] = np.where(df['Price'].shift(1) > df['SMA'].shift(1), 1, 0)`
at row `i` (line 68).  Note `np.where` is total: rows where either shifted
operand is `NaN` get the numeric value `0`. -/
def signalAt (w : Nat) (p : List ℚ) (i : Nat) : Nat :=
  if gtOpt (prevPrice p i) (prevSMA w p i) then 1 else 0

/-- `df['SPY_Ret'] = df['Price'].pct_change().fillna(0)` at row `i`
(line 71).  `pct_change` is `NaN` at row 0 and `fillna` turns that into 0;
`p` is the `NaN`-free benchmark price column. -/
def spyRetAt (p : List ℚ) (i : Nat) : ℚ :=
  match i with
  | 0 => 0
  | Nat.succ j =>
    match p.get? j, p.get? (j + 1) with
    | some prev, some cur => cur / prev - 1
    | _, _ => 0

/-- `series.pct_change()` over an instrument's own date index
(lines 72-73): `NaN` at the first row, `v_k / v_(k-1) - 1` afterwards,
keyed by the instrument's dates. -/
def pct_change (s : List (Date × ℚ)) : List (Date × Option ℚ) :=
  s.enum.map (fun e =>
    (e.2.1,
      match e.1 with
      | 0 => none
      | Nat.succ k => (s.get? k).map (fun prev => e.2.2 / prev.2 - 1)))

/-- Date-keyed reindexing: the value a series contributes at benchmark
date `d` when assigned into `df` (pandas aligns by index, never by
position); a date absent from the series yields `NaN`. -/
def lookupDate (s : List (Date × Option ℚ)) (d : Date) : Option ℚ :=
  match s.find? (fun e => e.1 == d) with
  | some e => e.2
  | none => none

/-- `cost_of_money = df['RiskFree_Rate'] + BROKER_SPREAD` (line 76),
parameterised by the per-date risk-free rate and the spread. -/
def cost_of_money (rf spread : ℚ) : ℚ := rf + spread

/-- `df['SSO_Ret_Synth'] = (df['SPY_Ret'] * 2) - (cost_of_money * 1) - DAILY_EXPENSE`
(line 77), parameterised by the financing inputs. -/
def SSO_Ret_SynthF (rf spread exp rb : ℚ) : ℚ :=
  rb * 2 - cost_of_money rf spread * 1 - exp

/-- `df['UPRO_Ret_Synth'] = (df['SPY_Ret'] * 3) - (cost_of_money * 2) - DAILY_EXPENSE`
(line 78). -/
def UPRO_Ret_SynthF (rf spread exp rb : ℚ) : ℚ :=
  rb * 3 - cost_of_money rf spread * 2 - exp

/-- Modelled from the spec (§4.2), for comparison with the two hard-coded
tiers of the source: `synthetic_return(t, L) = r_b(t) * L - cost_of_money(t) * (L - 1) - daily_expense`. -/
def synthetic_return_spec (L : Nat) (rf spread exp rb : ℚ) : ℚ :=
  rb * L - (rf + spread) * ((L : ℚ) - 1) - exp

/-- `a.combine_first(b)` per date (lines 81-82): prefer the first series,
fall back to the second where the first is `NaN`. -/
def combine_first (a b : Option ℚ) : Option ℚ :=
  match a with
  | some x => some x
  | none => b

/-- `np.where(df['Signal'] == 1, leveraged_final, df['RiskFree_Rate'])` at
one row (lines 85-86). -/
def stratWhere (sig : Nat) (fin : Option ℚ) (rf : ℚ) : Option ℚ :=
  if sig = 1 then fin else some rf

/-- pandas `Series.cumprod()` (default `skipna=True`) with running
accumulator `acc`: a `NaN` entry yields `NaN` at its own position while
the accumulator carries past it unchanged. -/
def cumprodSkip (acc : ℚ) : List (Option ℚ) → List (Option ℚ)
  | [] => []
  | none :: rest => none :: cumprodSkip acc rest
  | some x :: rest => some (acc * x) :: cumprodSkip (acc * x) rest

/-- `START * (1 + rets).cumprod()` (lines 89-91): the equity-curve
builder applied to one (possibly gappy) daily return series. -/
def equityCurve (start : ℚ) (rets : List (Option ℚ)) : List (Option ℚ) :=
  (cumprodSkip 1 (rets.map (Option.map (fun r => 1 + r)))).map
    (Option.map (fun v => start * v))

/-- One row of the core dataframe `df` built by `fetch_hybrid_data`
(lines 60-86), at positional index `i` of the benchmark index. -/
structure Row where
  date : Date
  Price : ℚ
  RiskFree_Rate : ℚ
  SMA : Option ℚ
  Signal : Nat
  SPY_Ret : ℚ
  SSO_Ret_Real : Option ℚ
  UPRO_Ret_Real : Option ℚ
  SSO_Ret_Synth : ℚ
  UPRO_Ret_Synth : ℚ
  SSO_Final : Option ℚ
  UPRO_Final : Option ℚ
  Strat_2x : Option ℚ
  Strat_3x : Option ℚ
  deriving DecidableEq

/-- A row of `df` together with its three cumulative equity values
(lines 89-91). -/
structure FullRow extends Row where
  Eq_2x : Option ℚ
  Eq_3x : Option ℚ
  Eq_Bench : Option ℚ
  deriving DecidableEq

/-- The per-row computations of `fetch_hybrid_data` (lines 64-86) at
positional index `i`, date `d`, benchmark price `v`; `p` is the full
benchmark price column. -/
def rowAt (w : Nat) (p : List ℚ) (ssoIn uproIn : List (Date × ℚ))
    (i : Nat) (d : Date) (v : ℚ) : Row :=
  let rf := riskFreeDaily
  let sRet := spyRetAt p i
  let ssoReal := lookupDate (pct_change ssoIn) d
  let uproReal := lookupDate (pct_change uproIn) d
  let ssoSyn := SSO_Ret_SynthF rf BROKER_SPREAD DAILY_EXPENSE sRet
  let uproSyn := UPRO_Ret_SynthF rf BROKER_SPREAD DAILY_EXPENSE sRet
  let sig := signalAt w p i
  { date := d
    Price := v
    RiskFree_Rate := rf
    SMA := smaAt w p i
    Signal := sig
    SPY_Ret := sRet
    SSO_Ret_Real := ssoReal
    UPRO_Ret_Real := uproReal
    SSO_Ret_Synth := ssoSyn
    UPRO_Ret_Synth := uproSyn
    SSO_Final := combine_first ssoReal (some ssoSyn)
    UPRO_Final := combine_first uproReal (some uproSyn)
    Strat_2x := stratWhere sig (combine_first ssoReal (some ssoSyn)) rf
    Strat_3x := stratWhere sig (combine_first uproReal (some uproSyn)) rf }

/-- All rows of `df` before the equity columns: the benchmark is cleaned
by `dropna` (line 57) and every derived column is aligned to its index. -/
def mkRows (spyRaw : List (Date × Option ℚ)) (ssoIn uproIn : List (Date × ℚ)) :
    List Row :=
  let spy := dropna spyRaw
  let p := spy.map Prod.snd
  spy.enum.map (fun e => rowAt SMA_PERIOD p ssoIn uproIn e.1 e.2.1 e.2.2)

/-- Zip the rows with the three equity columns. -/
def zipEq (rows : List Row) (a b c : List (Option ℚ)) : List FullRow :=
  (rows.zip (a.zip (b.zip c))).map
    (fun e => { toRow := e.1, Eq_2x := e.2.1, Eq_3x := e.2.2.1,
                Eq_Bench := e.2.2.2 })

/-- `fetch_hybrid_data` (lines 26-96): the returned dataframe, after the
final `df.dropna(subset=['Eq_2x', 'Eq_3x'])` (line 94). -/
def fetchHybridData (spyRaw : List (Date × Option ℚ))
    (ssoIn uproIn : List (Date × ℚ)) : List FullRow :=
  let rows := mkRows spyRaw ssoIn uproIn
  let e2 := equityCurve START_CAPITAL (rows.map (fun r => r.Strat_2x))
  let e3 := equityCurve START_CAPITAL (rows.map (fun r => r.Strat_3x))
  let eb := equityCurve START_CAPITAL (rows.map (fun r => some r.SPY_Ret))
  (zipEq rows e2 e3 eb).filter (fun fr => fr.Eq_2x.isSome && fr.Eq_3x.isSome)

-- ==========================================
-- 3. GENERATE APP (module level, lines 101-139)
-- ==========================================

/-- `last_year_data = df[df.index.year == last_year]` followed by the YTD
arithmetic of lines 128-139, for one equity column `proj`.  After the
`dropna` of line 94 every projected value is defined; the defensive 0 in
the final match is unreachable there. -/
def ytdOf (rows : List FullRow) (proj : FullRow → Option ℚ) : ℚ :=
  match rows.getLast? with
  | none => 0
  | some lastRow =>
    let ly := yearOf lastRow.date - 1
    let lyData := rows.filter (fun r => yearOf r.date == ly)
    match lyData.getLast? with
    | none => 0
    | some base =>
      match proj lastRow, proj base with
      | some vLast, some vBase => (vLast / vBase - 1) * 100
      | _, _ => 0

/-- The structured output the script computes before rendering
(lines 116-139). -/
structure Output where
  current_price : ℚ
  current_sma : Option ℚ
  current_date : Date
  distance_pct : Option ℚ
  is_bullish : Bool
  ytd_2x : ℚ
  ytd_3x : ℚ
  ytd_bench : ℚ
  deriving DecidableEq

/-- The module-level run (lines 101-139): build `df`, abort (`exit(1)`)
when it is empty, otherwise compute the displayed metrics.  The second
half of the line-104 guard, `np.isnan(df['Price'].iloc[-1])`, is
identically false in this embedding because the `Price` column is
`NaN`-free after the `dropna` of line 57. -/
def runApp (spyRaw : List (Date × Option ℚ)) (ssoIn uproIn : List (Date × ℚ)) :
    Option Output :=
  let df := fetchHybridData spyRaw ssoIn uproIn
  match df.getLast? with
  | none => none
  | some lastRow =>
    some
      { current_price := lastRow.Price
        current_sma := lastRow.SMA
        current_date := lastRow.date
        distance_pct := lastRow.SMA.map (fun s => (lastRow.Price / s - 1) * 100)
        is_bullish :=
          match lastRow.SMA with
          | some s => decide (s < lastRow.Price)
          | none => false
        ytd_2x := ytdOf df (fun r => r.Eq_2x)
        ytd_3x := ytdOf df (fun r => r.Eq_3x)
        ytd_bench := ytdOf df (fun r => r.Eq_Bench) }

-- ==========================================
-- Helper lemmas
-- ==========================================

/-- Two lists with the same entries below `n` have the same `take n`. -/
lemma take_congr (p q : List ℚ) (n : Nat)
    (h : ∀ j, j < n → p.get? j = q.get? j) : p.take n = q.take n := by
  apply List.ext_get?
  intro j
  rcases Nat.lt_or_ge j n with hj | hj
  · rw [List.get?_take hj, List.get?_take hj, h j hj]
  · have hp : (p.take n).get? j = none := by
      apply List.get?_eq_none.mpr
      exact le_trans (List.length_take_le n p) hj
    have hq : (q.take n).get? j = none := by
      apply List.get?_eq_none.mpr
      exact le_trans (List.length_take_le n q) hj
    rw [hp, hq]

lemma gtOpt_none_right (a : Option ℚ) : gtOpt a none = false := by
  cases a <;> rfl

lemma gtOpt_none_left (b : Option ℚ) : gtOpt none b = false := by
  cases b <;> rfl

-- ==========================================
-- Claim theorems
-- ==========================================

/-- **C1** (no-lookahead of the regime signal): the signal at row `t` —
the `Signal` column of line 68 — is determined by the prices at rows
`< t` alone (`Price.shift(1)` and `SMA.shift(1)`): two benchmark price
columns that agree strictly below `t` produce the same `signal(t)`, so
changing `price(t)` (and hence `sma(t)`) never changes `signal(t)`. -/
theorem C1_no_lookahead (w : Nat) (p q : List ℚ) (t : Nat)
    (hp : t ≤ p.length) (hq : t ≤ q.length)
    (h : ∀ j, j < t → p.get? j = q.get? j) :
    signalAt w p t = signalAt w q t := by
  cases t with
  | zero => simp [signalAt, prevPrice, prevSMA]
  | succ j =>
    have hpq : p.get? j = q.get? j := h j (Nat.lt_succ_self j)
    have htake : p.take (j + 1) = q.take (j + 1) := take_congr p q (j + 1) h
    have h1 : j < p.length := lt_of_lt_of_le (Nat.lt_succ_self j) hp
    have h2 : j < q.length := lt_of_lt_of_le (Nat.lt_succ_self j) hq
    have hsma : smaAt w p j = smaAt w q j := by
      unfold smaAt
      rw [htake]
      simp [h1, h2]
    simp only [signalAt, prevPrice, prevSMA, hpq, hsma]

/-- Witness for C1: extending `[1, 2]` with a third price of `3` or of
`100` yields the same signal on the third date. -/
theorem C1_witness : signalAt 2 [1, 2, 3] 2 = signalAt 2 [1, 2, 100] 2 :=
  C1_no_lookahead 2 [1, 2, 3] [1, 2, 100] 2 (by simp) (by simp)
    (by intro j hj; interval_cases j <;> rfl)

/-- **C3** (synthetic return formula): the hard-coded 2x and 3x synthetic
columns of lines 77-78 agree with the spec's
`r_b * L - (rf + spread) * (L - 1) - expense` at `L = 2` and `L = 3`, and
at `r_b = 0.01, L = 2, rf = 0.0000793, spread = 0.0000198,
expense = 0.0000437` the value is `0.0198572`. -/
theorem C3_synthetic_formula (rf spread exp rb : ℚ) :
    SSO_Ret_SynthF rf spread exp rb = synthetic_return_spec 2 rf spread exp rb ∧
    UPRO_Ret_SynthF rf spread exp rb = synthetic_return_spec 3 rf spread exp rb ∧
    synthetic_return_spec 2 (793 / 10000000) (198 / 10000000) (437 / 10000000)
      (1 / 100) = 1985720 / 100000000 := by
  refine ⟨?_, ?_, by norm_num [synthetic_return_spec]⟩ <;>
    · simp only [SSO_Ret_SynthF, UPRO_Ret_SynthF, synthetic_return_spec,
        cost_of_money]
      push_cast
      ring

/-- **C6** (strategy selection, lines 85-86): where the signal is 1 the
strategy takes the spliced leveraged return, where it is 0 it takes the
risk-free rate — whatever the leveraged return is, never zero and never
an inverse position. -/
theorem C6_strategy_selection (sig : Nat) (fin : Option ℚ) (rf : ℚ) :
    (sig = 1 → stratWhere sig fin rf = fin) ∧
    (sig = 0 → stratWhere sig fin rf = some rf) := by
  constructor <;> intro h <;> simp [stratWhere, h]

/-- Witness for C6: with `signal = 0`, `rf = 0.00008` and a (large)
leveraged return `0.5`, the strategy return is `0.00008`. -/
theorem C6_witness : stratWhere 0 (some (5 / 10)) (8 / 100000) =
    some ((8 : ℚ) / 100000) :=
  (C6_strategy_selection 0 (some (5 / 10)) (8 / 100000)).2 rfl

/-- **C4**, amended (warm-up signal): where `price(t-1)` or `sma(t-1)` is
undefined, `np.where` (line 68) yields the numeric signal `0` — not an
undefined signal — and the strategy consequently books the risk-free
return on that date. -/
theorem C4_warmup_signal_zero (w : Nat) (p : List ℚ) (t : Nat)
    (h : prevPrice p t = none ∨ prevSMA w p t = none) :
    signalAt w p t = 0 ∧
    ∀ fin rf, stratWhere (signalAt w p t) fin rf = some rf := by
  have hg : gtOpt (prevPrice p t) (prevSMA w p t) = false := by
    rcases h with h | h <;> rw [h]
    · exact gtOpt_none_left _
    · exact gtOpt_none_right _
  have h0 : signalAt w p t = 0 := by simp [signalAt, hg]
  exact ⟨h0, fun fin rf => by simp [h0, stratWhere]⟩

/-- Witness for C4 (amended): on the very first date the shifted price is
undefined, the signal is `0` and the strategy return is the risk-free
rate. -/
theorem C4_witness : signalAt SMA_PERIOD [100] 0 = 0 ∧
    stratWhere (signalAt SMA_PERIOD [100] 0) (some 5) riskFreeDaily =
      some riskFreeDaily :=
  ⟨(C4_warmup_signal_zero SMA_PERIOD [100] 0 (Or.inl rfl)).1,
   (C4_warmup_signal_zero SMA_PERIOD [100] 0 (Or.inl rfl)).2 (some 5) riskFreeDaily⟩

/-- Counterexample to **C4** as stated: on a three-date benchmark (SMA
window 300, so `sma` is everywhere undefined) every date still gets the
numeric signal `0`, every date keeps a defined equity value, and the
final frame retains all three dates — none is excluded. -/
theorem C4_counterexample :
    ((fetchHybridData [(2024001, some 100), (2024002, some 101),
        (2024003, some 102)] [] []).map (fun r => r.Signal) = [0, 0, 0]) ∧
    ((fetchHybridData [(2024001, some 100), (2024002, some 101),
        (2024003, some 102)] [] []).map (fun r => r.Eq_2x.isSome) =
      [true, true, true]) ∧
    prevSMA SMA_PERIOD [100, 101, 102] 2 = none :=
  ⟨rfl, rfl, rfl⟩

/-- `pct_change` keeps the instrument's own date index. -/
lemma pct_change_fst (s : List (Date × ℚ)) :
    (pct_change s).map Prod.fst = s.map Prod.fst := by
  apply List.ext_get?
  intro n
  simp only [pct_change, List.get?_map, List.get?_enum]
  cases h : s.get? n <;> simp [h]

/-- A date absent from a series' index reindexes to `NaN`. -/
lemma lookupDate_eq_none (s : List (Date × Option ℚ)) (d : Date)
    (h : d ∉ s.map Prod.fst) : lookupDate s d = none := by
  unfold lookupDate
  have hf : s.find? (fun e => e.1 == d) = none := by
    rw [List.find?_eq_none]
    intro e he hbeq
    exact h (List.mem_map.mpr ⟨e, he, beq_iff_eq.mp hbeq⟩)
  rw [hf]

/-- **C2** (splice correctness, lines 81-82): at every benchmark date the
final leveraged return is the real observed return where that is defined
and the synthetic return otherwise; the precedence is keyed purely by
date, so a date missing from the instrument's index — wherever it falls —
is filled synthetically. -/
theorem C2_splice_correctness (w : Nat) (p : List ℚ)
    (ssoIn uproIn : List (Date × ℚ)) (i : Nat) (d : Date) (v : ℚ) :
    ((lookupDate (pct_change ssoIn) d).isSome →
      (rowAt w p ssoIn uproIn i d v).SSO_Final =
        lookupDate (pct_change ssoIn) d) ∧
    (lookupDate (pct_change ssoIn) d = none →
      (rowAt w p ssoIn uproIn i d v).SSO_Final =
        some ((rowAt w p ssoIn uproIn i d v).SSO_Ret_Synth)) ∧
    (d ∉ ssoIn.map Prod.fst → lookupDate (pct_change ssoIn) d = none) ∧
    ((lookupDate (pct_change uproIn) d).isSome →
      (rowAt w p ssoIn uproIn i d v).UPRO_Final =
        lookupDate (pct_change uproIn) d) ∧
    (lookupDate (pct_change uproIn) d = none →
      (rowAt w p ssoIn uproIn i d v).UPRO_Final =
        some ((rowAt w p ssoIn uproIn i d v).UPRO_Ret_Synth)) ∧
    (d ∉ uproIn.map Prod.fst → lookupDate (pct_change uproIn) d = none) := by
  refine ⟨?_, ?_, ?_, ?_, ?_, ?_⟩
  · intro h
    rcases Option.isSome_iff_exists.mp h with ⟨r, hr⟩
    simp [rowAt, combine_first, hr]
  · intro h
    simp [rowAt, combine_first, h]
  · intro h
    exact lookupDate_eq_none _ _ (by rwa [pct_change_fst])
  · intro h
    rcases Option.isSome_iff_exists.mp h with ⟨r, hr⟩
    simp [rowAt, combine_first, hr]
  · intro h
    simp [rowAt, combine_first, h]
  · intro h
    exact lookupDate_eq_none _ _ (by rwa [pct_change_fst])

/-- Witness for C2: benchmark date 3 falls after the instrument's real
data `[(1, 50), (2, 55)]` stops, so the spliced return on date 3 is the
synthetic one. -/
theorem C2_witness :
    (rowAt SMA_PERIOD [100, 110, 121] [(1, 50), (2, 55)] [] 2 3 121).SSO_Final =
      some ((rowAt SMA_PERIOD [100, 110, 121] [(1, 50), (2, 55)] [] 2 3
        121).SSO_Ret_Synth) := by
  have hmem : (3 : Date) ∉ ([(1, 50), (2, 55)] :
      List (Date × ℚ)).map Prod.fst := by decide
  exact (C2_splice_correctness SMA_PERIOD [100, 110, 121] [(1, 50), (2, 55)]
      [] 2 3 121).2.1
    ((C2_splice_correctness SMA_PERIOD [100, 110, 121] [(1, 50), (2, 55)]
      [] 2 3 121).2.2.1 hmem)

/-- `filterMap id` commutes with mapping a function under `Option.map`. -/
lemma filterMap_id_map (f : ℚ → ℚ) (l : List (Option ℚ)) :
    (l.map (Option.map f)).filterMap id = (l.filterMap id).map f := by
  induction l with
  | nil => rfl
  | cons x xs ih => cases x <;> simp [ih]

/-- Value of pandas `cumprod` (skipna) at one position: `NaN` exactly
where the input is `NaN`, otherwise the accumulator times the product of
the defined entries up to and including that position. -/
lemma cumprodSkip_get? (acc : ℚ) (xs : List (Option ℚ)) (i : Nat)
    (o : Option ℚ) (hx : xs.get? i = some o) :
    (cumprodSkip acc xs).get? i =
      some (o.map (fun _ => acc * ((xs.take (i + 1)).filterMap id).prod)) := by
  induction xs generalizing acc i o with
  | nil => simp at hx
  | cons x rest ih =>
    cases i with
    | zero =>
      simp only [List.get?] at hx
      injection hx with hx
      subst hx
      cases x with
      | none => rfl
      | some a => simp [cumprodSkip, mul_one]
    | succ j =>
      simp only [List.get?] at hx
      cases x with
      | none =>
        have := ih acc j o hx
        simpa [cumprodSkip] using this
      | some a =>
        have := ih (acc * a) j o hx
        rw [show cumprodSkip acc (some a :: rest) =
          some (acc * a) :: cumprodSkip (acc * a) rest from rfl]
        rw [show (some (acc * a) :: cumprodSkip (acc * a) rest).get? (j + 1) =
          (cumprodSkip (acc * a) rest).get? j from rfl]
        rw [this]
        cases o <;> simp [mul_assoc]

/-- Value of the equity-curve builder at one position: `NaN` exactly
where the input return is `NaN`, otherwise
`start * Π (1 + r)` over the defined returns up to that position. -/
lemma equityCurve_get? (start : ℚ) (rets : List (Option ℚ)) (i : Nat)
    (o : Option ℚ) (hx : rets.get? i = some o) :
    (equityCurve start rets).get? i =
      some (o.map (fun _ =>
        start * (((rets.take (i + 1)).filterMap id).map
          (fun r => 1 + r)).prod)) := by
  have hx' : (rets.map (Option.map (fun r => 1 + r))).get? i =
      some (o.map (fun r => 1 + r)) := by
    rw [List.get?_map, hx]; rfl
  have h := cumprodSkip_get? 1 (rets.map (Option.map (fun r => 1 + r))) i
    (o.map (fun r => 1 + r)) hx'
  unfold equityCurve
  rw [List.get?_map, h]
  rw [← List.map_take, filterMap_id_map]
  cases o <;> simp [one_mul]

/-- Counterexample to **C5** as stated: feeding the equity-curve builder
(lines 89-91) the series `[1%, NaN, 1%]`, the output still has a value at
position 0 — a date *earlier* than the undefined input at position 1 —
and resumes with a value at position 2, so the first defined value does
not wait until after the last undefined input and the gap is skipped
(treated as a zero return) rather than poisoning the prefix. -/
theorem C5_counterexample :
    (equityCurve 10000 [some (1 / 100), none, some (1 / 100)]).map
      Option.isSome = [true, false, true] :=
  rfl

/-- **C5**, amended: an undefined return makes the equity value undefined
at exactly its own position; every position with a defined return keeps a
defined value equal to `start * Π (1 + r)` over the *defined* returns up
to it (before or after the gap), i.e. pandas `cumprod` skips the gap as
if its return were zero, and the `dropna` of line 94 then removes only
the undefined rows. -/
theorem C5_skipna_propagation (start : ℚ) (rets : List (Option ℚ))
    (i j : Nat) (r : ℚ)
    (hi : rets.get? i = some none) (hj : rets.get? j = some (some r)) :
    (equityCurve start rets).get? i = some none ∧
    (equityCurve start rets).get? j =
      some (some (start * (((rets.take (j + 1)).filterMap id).map
        (fun s => 1 + s)).prod)) := by
  constructor
  · rw [equityCurve_get? start rets i none hi]
    rfl
  · rw [equityCurve_get? start rets j (some r) hj]
    rfl

/-- Witness for C5 (amended): on `[1%, NaN, 1%]` with capital 10000 the
curve is `[10100, NaN, 10201]`. -/
theorem C5_witness :
    (equityCurve 10000 [some (1 / 100), none, some (1 / 100)]).get? 1 =
      some none ∧
    (equityCurve 10000 [some (1 / 100), none, some (1 / 100)]).get? 2 =
      some (some 10201) := by
  have h := C5_skipna_propagation 10000
    [some (1 / 100), none, some (1 / 100)] 1 2 (1 / 100) rfl rfl
  refine ⟨h.1, ?_⟩
  rw [h.2]
  norm_num [List.filterMap_cons]

/-- **C7** (equity compounding, lines 89-91): wherever the input return
is defined, the equity value is the start capital times the product of
`1 + return` over the defined dates up to and including that one. -/
theorem C7_equity_compounding (start : ℚ) (rets : List (Option ℚ))
    (t : Nat) (r : ℚ) (ht : rets.get? t = some (some r)) :
    (equityCurve start rets).get? t =
      some (some (start * (((rets.take (t + 1)).filterMap id).map
        (fun s => 1 + s)).prod)) := by
  rw [equityCurve_get? start rets t (some r) ht]
  rfl

/-- Witness for C7: with start capital 10000 and returns `[1%, -2%]` the
curve ends at `10000 * 1.01 * 0.98 = 9898` (and passes through 10100). -/
theorem C7_witness :
    (equityCurve 10000 [some (1 / 100), some (-2 / 100)]).get? 0 =
      some (some 10100) ∧
    (equityCurve 10000 [some (1 / 100), some (-2 / 100)]).get? 1 =
      some (some 9898) := by
  have h0 := C7_equity_compounding 10000
    [some (1 / 100), some (-2 / 100)] 0 (1 / 100) rfl
  have h1 := C7_equity_compounding 10000
    [some (1 / 100), some (-2 / 100)] 1 (-2 / 100) rfl
  rw [h0, h1]
  norm_num [List.filterMap_cons]

/-- **C8** (period / YTD return, lines 128-139): writing `y` for the year
of the curve's last date, if no row's year equals `y - 1` the period
return is the conventional `0.0`; if some row is the last one whose year
equals `y - 1` (the anchor), the period return is
`(equity(last) / equity(anchor) - 1) * 100`. -/
theorem C8_period_return (rows : List FullRow) (proj : FullRow → Option ℚ)
    (lastRow : FullRow) (hlast : rows.getLast? = some lastRow) :
    ((∀ r ∈ rows, yearOf r.date ≠ yearOf lastRow.date - 1) →
      ytdOf rows proj = 0) ∧
    (∀ pre anchor suf, rows = pre ++ anchor :: suf →
      yearOf anchor.date = yearOf lastRow.date - 1 →
      (∀ r ∈ suf, yearOf r.date ≠ yearOf lastRow.date - 1) →
      ∀ vL vA, proj lastRow = some vL → proj anchor = some vA →
      ytdOf rows proj = (vL / vA - 1) * 100) := by
  constructor
  · intro h
    have hfil : rows.filter
        (fun r => yearOf r.date == yearOf lastRow.date - 1) = [] := by
      rw [List.filter_eq_nil]
      intro r hr
      simpa using h r hr
    simp only [ytdOf, hlast, hfil]
    rfl
  · intro pre anchor suf hsplit hanchor hsuf vL vA hvL hvA
    have hfil : rows.filter
        (fun r => yearOf r.date == yearOf lastRow.date - 1) =
        pre.filter (fun r => yearOf r.date == yearOf lastRow.date - 1) ++
          [anchor] := by
      rw [hsplit, List.filter_append,
        List.filter_cons_of_pos (by simpa using hanchor)]
      have : suf.filter
          (fun r => yearOf r.date == yearOf lastRow.date - 1) = [] := by
        rw [List.filter_eq_nil]
        intro r hr
        simpa using hsuf r hr
      rw [this]
    simp only [ytdOf, hlast, hfil, List.getLast?_concat, hvL, hvA]

/-- A bare equity-curve row used to exercise the period-return
calculator: date `d` with all three equity values `v`. -/
def mkTestRow (d : Date) (v : ℚ) : FullRow :=
  { date := d, Price := v, RiskFree_Rate := 0, SMA := none, Signal := 0,
    SPY_Ret := 0, SSO_Ret_Real := none, UPRO_Ret_Real := none,
    SSO_Ret_Synth := 0, UPRO_Ret_Synth := 0, SSO_Final := none,
    UPRO_Final := none, Strat_2x := none, Strat_3x := none,
    Eq_2x := some v, Eq_3x := some v, Eq_Bench := some v }

/-- Witness for C8: equity 100 on the prior year's last trading date and
110 on the current date give a period return of 10%. -/
theorem C8_witness :
    ytdOf [mkTestRow 2023360 100, mkTestRow 2024005 110]
      (fun r => r.Eq_2x) = 10 := by
  have h := (C8_period_return [mkTestRow 2023360 100, mkTestRow 2024005 110]
      (fun r => r.Eq_2x) (mkTestRow 2024005 110) rfl).2
    [] (mkTestRow 2023360 100) [mkTestRow 2024005 110] rfl (by decide)
    (by intro r hr; simp at hr; subst hr; decide) 110 100 rfl rfl
  rw [h]
  norm_num

lemma cumprodSkip_length (acc : ℚ) (xs : List (Option ℚ)) :
    (cumprodSkip acc xs).length = xs.length := by
  induction xs generalizing acc with
  | nil => rfl
  | cons x rest ih => cases x <;> simp [cumprodSkip, ih]

lemma equityCurve_length (start : ℚ) (rets : List (Option ℚ)) :
    (equityCurve start rets).length = rets.length := by
  unfold equityCurve
  rw [List.length_map, cumprodSkip_length, List.length_map]

lemma mkRows_length (s : List (Date × Option ℚ)) (a b : List (Date × ℚ)) :
    (mkRows s a b).length = (dropna s).length := by
  simp [mkRows]

lemma zipEq_length (rows : List Row) (a b c : List (Option ℚ))
    (ha : a.length = rows.length) (hb : b.length = rows.length)
    (hc : c.length = rows.length) :
    (zipEq rows a b c).length = rows.length := by
  unfold zipEq
  rw [List.length_map, List.length_zip, List.length_zip, List.length_zip,
    ha, hb, hc]
  simp

/-- Membership in the zipped frame projects to membership in each column. -/
lemma mem_zipEq {rows : List Row} {a b c : List (Option ℚ)} {fr : FullRow}
    (h : fr ∈ zipEq rows a b c) :
    fr.toRow ∈ rows ∧ fr.Eq_2x ∈ a ∧ fr.Eq_3x ∈ b := by
  unfold zipEq at h
  rcases List.mem_map.mp h with ⟨e, he, rfl⟩
  obtain ⟨r, x, y, z⟩ := e
  have h1 := List.mem_zip he
  have h2 := List.mem_zip h1.2
  have h3 := List.mem_zip h2.2
  exact ⟨h1.1, h2.1, h3.1⟩

lemma combine_first_some_isSome (a : Option ℚ) (x : ℚ) :
    (combine_first a (some x)).isSome := by
  cases a <;> rfl

lemma stratWhere_isSome (sig : Nat) (fin : Option ℚ) (rf : ℚ)
    (h : fin.isSome) : (stratWhere sig fin rf).isSome := by
  unfold stratWhere
  split <;> simp [h]

/-- Every strategy return the pipeline produces is defined: the spliced
leveraged return always exists (the synthetic side is total) and the
bearish branch is the risk-free scalar. -/
lemma rowAt_strat_isSome (w : Nat) (p : List ℚ)
    (ssoIn uproIn : List (Date × ℚ)) (i : Nat) (d : Date) (v : ℚ) :
    ((rowAt w p ssoIn uproIn i d v).Strat_2x).isSome ∧
    ((rowAt w p ssoIn uproIn i d v).Strat_3x).isSome := by
  constructor <;>
    exact stratWhere_isSome _ _ _ (combine_first_some_isSome _ _)

lemma mem_mkRows {s : List (Date × Option ℚ)} {a b : List (Date × ℚ)}
    {row : Row} (h : row ∈ mkRows s a b) :
    ∃ i d v, row = rowAt SMA_PERIOD ((dropna s).map Prod.snd) a b i d v := by
  simp only [mkRows] at h
  rcases List.mem_map.mp h with ⟨e, he, rfl⟩
  exact ⟨e.1, e.2.1, e.2.2, rfl⟩

lemma cumprodSkip_isSome_of (acc : ℚ) (xs : List (Option ℚ))
    (h : ∀ x ∈ xs, x.isSome) : ∀ y ∈ cumprodSkip acc xs, y.isSome := by
  induction xs generalizing acc with
  | nil => intro y hy; simp [cumprodSkip] at hy
  | cons x rest ih =>
    intro y hy
    cases x with
    | none =>
      have := h none (by simp)
      simp at this
    | some a =>
      rw [show cumprodSkip acc (some a :: rest) =
        some (acc * a) :: cumprodSkip (acc * a) rest from rfl] at hy
      rcases List.mem_cons.mp hy with rfl | hy
      · rfl
      · exact ih (acc * a) (fun x hx => h x (List.mem_cons_of_mem _ hx)) y hy

lemma equityCurve_isSome_of (start : ℚ) (rets : List (Option ℚ))
    (h : ∀ x ∈ rets, x.isSome) : ∀ y ∈ equityCurve start rets, y.isSome := by
  intro y hy
  unfold equityCurve at hy
  rcases List.mem_map.mp hy with ⟨z, hz, rfl⟩
  have hz' : z.isSome := by
    refine cumprodSkip_isSome_of 1 _ ?_ z hz
    intro x hx
    rcases List.mem_map.mp hx with ⟨o, ho, rfl⟩
    have := h o ho
    cases o <;> simp_all
  cases z <;> simp_all

/-- The `dropna(subset=['Eq_2x', 'Eq_3x'])` of line 94 removes nothing:
both equity columns are everywhere defined because every strategy return
is defined. -/
lemma fetchHybridData_eq (s : List (Date × Option ℚ))
    (a b : List (Date × ℚ)) :
    fetchHybridData s a b =
      zipEq (mkRows s a b)
        (equityCurve START_CAPITAL ((mkRows s a b).map (fun r => r.Strat_2x)))
        (equityCurve START_CAPITAL ((mkRows s a b).map (fun r => r.Strat_3x)))
        (equityCurve START_CAPITAL
          ((mkRows s a b).map (fun r => some r.SPY_Ret))) := by
  unfold fetchHybridData
  apply List.filter_eq_self.mpr
  intro fr hfr
  obtain ⟨_, h2, h3⟩ := mem_zipEq hfr
  have h2' : fr.Eq_2x.isSome := by
    refine equityCurve_isSome_of _ _ ?_ _ h2
    intro x hx
    rcases List.mem_map.mp hx with ⟨row, hrow, rfl⟩
    obtain ⟨i, d, v, rfl⟩ := mem_mkRows hrow
    exact (rowAt_strat_isSome _ _ _ _ _ _ _).1
  have h3' : fr.Eq_3x.isSome := by
    refine equityCurve_isSome_of _ _ ?_ _ h3
    intro x hx
    rcases List.mem_map.mp hx with ⟨row, hrow, rfl⟩
    obtain ⟨i, d, v, rfl⟩ := mem_mkRows hrow
    exact (rowAt_strat_isSome _ _ _ _ _ _ _).2
  simp [h2', h3']

lemma fetchHybridData_length (s : List (Date × Option ℚ))
    (a b : List (Date × ℚ)) :
    (fetchHybridData s a b).length = (dropna s).length := by
  rw [fetchHybridData_eq, zipEq_length, mkRows_length] <;>
    rw [equityCurve_length, List.length_map]

/-- Counterexample to **C9** as stated: an input benchmark series whose
most recent price is undefined is *not* fatal — the `dropna` of line 57
silently discards that date, the guard of line 104 sees a nonempty,
`NaN`-free frame, and the run produces output dated at the last defined
price. -/
theorem C9_counterexample :
    (runApp [(2024001, some 100), (2024002, none)] [] []).isSome = true ∧
    ([(2024001, some (100 : ℚ)), (2024002, none)] :
      List (Date × Option ℚ)).getLast? = some (2024002, none) ∧
    (runApp [(2024001, some 100), (2024002, none)] [] []).map
      (fun o => o.current_date) = some 2024001 :=
  ⟨rfl, rfl, rfl⟩

/-- **C9**, amended: the run aborts before producing any output exactly
when the benchmark series holds no defined price at all (so the frame of
line 104 is empty); an undefined most-recent price alone does not abort —
that date is dropped and the run proceeds from the last defined date. -/
theorem C9_abort_characterisation (s : List (Date × Option ℚ))
    (a b : List (Date × ℚ)) :
    runApp s a b = none ↔ dropna s = [] := by
  have hlen := fetchHybridData_length s a b
  have hempty : fetchHybridData s a b = [] ↔ dropna s = [] := by
    constructor
    · intro h
      rw [← List.length_eq_zero, ← hlen, h]
      rfl
    · intro h
      rw [← List.length_eq_zero, hlen, h]
      rfl
  constructor
  · intro h
    by_contra hne
    have hdf : fetchHybridData s a b ≠ [] := fun hh => hne (hempty.mp hh)
    have hsome : (fetchHybridData s a b).getLast?.isSome :=
      List.getLast?_isSome.mpr hdf
    rcases Option.isSome_iff_exists.mp hsome with ⟨lastRow, hl⟩
    simp only [runApp] at h
    rw [hl] at h
    simp at h
  · intro h
    have hdf : fetchHybridData s a b = [] := hempty.mpr h
    unfold runApp
    rw [hdf]
    rfl

/-- Witness for C9 (amended): the empty download aborts the run. -/
theorem C9_witness : runApp [] [] [] = none := by
  rw [C9_abort_characterisation]
  rfl

-- ==========================================
-- C10: a concrete series where the displayed regime and the lagged
-- signal disagree on the final date.
-- ==========================================

/-- 301 benchmark prices: 299 days at 100, a rise to 101, then a one-day
crash to 90 that pulls the final price below the final SMA. -/
def c10prices : List ℚ := List.replicate 299 100 ++ [101, 90]

def c10pairs : List (Date × ℚ) :=
  c10prices.enum.map (fun e => (2024001 + e.1, e.2))

def c10spy : List (Date × Option ℚ) :=
  c10pairs.map (fun e => (e.1, some e.2))

lemma dropna_map_some (s : List (Date × ℚ)) :
    dropna (s.map (fun e => (e.1, some e.2))) = s := by
  induction s with
  | nil => rfl
  | cons x xs ih =>
    simp only [List.map_cons, dropna, List.filterMap_cons, Option.map_some]
    simp only [dropna] at ih
    rw [ih]
    rfl

lemma c10_dropna : dropna c10spy = c10pairs := dropna_map_some c10pairs

lemma c10_p : (dropna c10spy).map Prod.snd = c10prices := by
  rw [c10_dropna]
  unfold c10pairs
  rw [List.map_map]
  have h : (Prod.snd ∘ fun e : Nat × ℚ => ((2024001 + e.1 : Date), e.2)) =
      (Prod.snd : Nat × ℚ → ℚ) := by
    funext e; rfl
  rw [h, List.enum_map_snd]

lemma c10_len : c10prices.length = 301 := by
  unfold c10prices
  rw [List.length_append, List.length_replicate]
  rfl

lemma c10_get299 : c10prices.get? 299 = some 101 := by
  unfold c10prices
  rw [List.get?_append_right (by rw [List.length_replicate]),
    List.length_replicate]
  rfl

lemma c10_get300 : c10prices.get? 300 = some 90 := by
  unfold c10prices
  rw [List.get?_append_right (by rw [List.length_replicate]; norm_num),
    List.length_replicate]
  rfl

lemma c10_take300 : c10prices.take 300 = List.replicate 299 100 ++ [101] := by
  unfold c10prices
  rw [List.take_append_eq_append_take,
    List.take_of_length_le (by rw [List.length_replicate]; norm_num),
    List.length_replicate]
  rfl

lemma c10_drop1 : c10prices.drop 1 = List.replicate 298 100 ++ [101, 90] := by
  unfold c10prices
  rw [show (299 : Nat) = 298 + 1 from rfl, List.replicate_succ]
  rfl

lemma sum_replicate_hundred (n : Nat) :
    (List.replicate n (100 : ℚ)).sum = n * 100 := by
  rw [List.sum_replicate, nsmul_eq_mul]

lemma c10_sma299 : smaAt 300 c10prices 299 = some (30001 / 300) := by
  unfold smaAt
  rw [if_pos ⟨by norm_num, by rw [c10_len]; norm_num⟩]
  congr 1
  rw [show (299 + 1 : Nat) = 300 from rfl,
    show (300 - 300 : Nat) = 0 from rfl, List.drop_zero, c10_take300,
    List.sum_append, sum_replicate_hundred]
  norm_num

lemma c10_sma300 : smaAt 300 c10prices 300 = some (29991 / 300) := by
  unfold smaAt
  rw [if_pos ⟨by norm_num, by rw [c10_len]; norm_num⟩]
  congr 1
  rw [show (300 + 1 - 300 : Nat) = 1 from rfl,
    List.take_of_length_le (by rw [c10_len]), c10_drop1,
    List.sum_append, sum_replicate_hundred]
  norm_num

lemma c10_signal : signalAt 300 c10prices 300 = 1 := by
  have h1 : gtOpt (some 101) (some (30001 / 300)) = true := by
    simp only [gtOpt, decide_eq_true_eq]
    norm_num
  rw [show signalAt 300 c10prices 300 =
    (if gtOpt (c10prices.get? 299) (smaAt 300 c10prices 299) then 1 else 0)
    from rfl, c10_get299, c10_sma299, h1]
  rfl

lemma mkRows_get? (s : List (Date × Option ℚ)) (a b : List (Date × ℚ))
    (i : Nat) (d : Date) (v : ℚ) (h : (dropna s).get? i = some (d, v)) :
    (mkRows s a b).get? i =
      some (rowAt SMA_PERIOD ((dropna s).map Prod.snd) a b i d v) := by
  simp only [mkRows]
  rw [List.get?_map, List.get?_enum, h]
  rfl

lemma zip_get?_some {α β : Type} {l1 : List α} {l2 : List β} {i : Nat}
    {x : α} {y : β} (h1 : l1.get? i = some x) (h2 : l2.get? i = some y) :
    (l1.zip l2).get? i = some (x, y) := by
  induction l1 generalizing l2 i with
  | nil => simp at h1
  | cons a as ih =>
    cases l2 with
    | nil => simp at h2
    | cons b bs =>
      cases i with
      | zero =>
        simp only [List.get?] at h1 h2
        injection h1 with h1
        injection h2 with h2
        subst h1
        subst h2
        rfl
      | succ j =>
        simp only [List.get?] at h1 h2
        rw [List.zip_cons_cons]
        show (as.zip bs).get? j = some (x, y)
        exact ih h1 h2

lemma zipEq_get? {rows : List Row} {a b c : List (Option ℚ)} {i : Nat}
    {r : Row} {x y z : Option ℚ} (hr : rows.get? i = some r)
    (ha : a.get? i = some x) (hb : b.get? i = some y)
    (hc : c.get? i = some z) :
    (zipEq rows a b c).get? i =
      some { toRow := r, Eq_2x := x, Eq_3x := y, Eq_Bench := z } := by
  unfold zipEq
  rw [List.get?_map, zip_get?_some hr (zip_get?_some ha (zip_get?_some hb hc))]
  rfl

lemma get?_exists_of_lt {α : Type} {l : List α} {i : Nat}
    (h : i < l.length) : ∃ x, l.get? i = some x := by
  have hne : l.get? i ≠ none := fun hc => by
    rw [List.get?_eq_none] at hc
    omega
  exact Option.ne_none_iff_exists'.mp hne

lemma rowAt_Signal (w : Nat) (p : List ℚ) (a b : List (Date × ℚ))
    (i : Nat) (d : Date) (v : ℚ) :
    (rowAt w p a b i d v).Signal = signalAt w p i := rfl

lemma rowAt_SMA (w : Nat) (p : List ℚ) (a b : List (Date × ℚ))
    (i : Nat) (d : Date) (v : ℚ) :
    (rowAt w p a b i d v).SMA = smaAt w p i := rfl

lemma rowAt_Price (w : Nat) (p : List ℚ) (a b : List (Date × ℚ))
    (i : Nat) (d : Date) (v : ℚ) :
    (rowAt w p a b i d v).Price = v := rfl

/-- **C10** (implicit; unlagged current-regime display): the displayed
"current signal" of lines 116-126 compares the final date's price with
the final date's SMA, with no one-day lag; on the concrete series
`c10spy` (299 days at 100, then 101, then a crash to 90) the display is
bearish (`is_bullish = false`) while the lagged signal column's value on
that same final date is bullish (`Signal = 1`). -/
theorem C10_unlagged_current_display :
    ((runApp c10spy [] []).map (fun o => o.is_bullish)) = some false ∧
    (((mkRows c10spy [] []).get? 300).map (fun r => r.Signal)) = some 1 := by
  have hplen : (dropna c10spy).length = 301 := by
    rw [c10_dropna]
    unfold c10pairs
    rw [List.length_map, List.enum_length, c10_len]
  have hpair300 : (dropna c10spy).get? 300 = some (2024301, 90) := by
    rw [c10_dropna]
    unfold c10pairs
    rw [List.get?_map, List.get?_enum, c10_get300]
    rfl
  have hrow300 : (mkRows c10spy [] []).get? 300 =
      some (rowAt SMA_PERIOD ((dropna c10spy).map Prod.snd) [] [] 300
        2024301 90) :=
    mkRows_get? _ _ _ _ _ _ hpair300
  rw [c10_p] at hrow300
  have hsig : (rowAt SMA_PERIOD c10prices [] [] 300 2024301 90).Signal = 1 :=
    (rowAt_Signal SMA_PERIOD c10prices [] [] 300 2024301 90).trans c10_signal
  have hsma : (rowAt SMA_PERIOD c10prices [] [] 300 2024301 90).SMA =
      some (29991 / 300) :=
    (rowAt_SMA SMA_PERIOD c10prices [] [] 300 2024301 90).trans c10_sma300
  have hprice : (rowAt SMA_PERIOD c10prices [] [] 300 2024301 90).Price =
      90 := rowAt_Price SMA_PERIOD c10prices [] [] 300 2024301 90
  constructor
  · have hrowslen : (mkRows c10spy [] []).length = 301 := by
      rw [mkRows_length, hplen]
    have hl2 : (equityCurve START_CAPITAL ((mkRows c10spy [] []).map
        (fun r => r.Strat_2x))).length = 301 := by
      rw [equityCurve_length, List.length_map, hrowslen]
    have hl3 : (equityCurve START_CAPITAL ((mkRows c10spy [] []).map
        (fun r => r.Strat_3x))).length = 301 := by
      rw [equityCurve_length, List.length_map, hrowslen]
    have hlb : (equityCurve START_CAPITAL ((mkRows c10spy [] []).map
        (fun r => some r.SPY_Ret))).length = 301 := by
      rw [equityCurve_length, List.length_map, hrowslen]
    obtain ⟨x2, hx2⟩ := get?_exists_of_lt (i := 300) (by rw [hl2]; norm_num)
    obtain ⟨x3, hx3⟩ := get?_exists_of_lt (i := 300) (by rw [hl3]; norm_num)
    obtain ⟨xb, hxb⟩ := get?_exists_of_lt (i := 300) (by rw [hlb]; norm_num)
    have hdf300 : (fetchHybridData c10spy [] []).get? 300 =
        some { toRow := rowAt SMA_PERIOD c10prices [] [] 300 2024301 90,
               Eq_2x := x2, Eq_3x := x3, Eq_Bench := xb } := by
      rw [fetchHybridData_eq]
      exact zipEq_get? hrow300 hx2 hx3 hxb
    have hdflen : (fetchHybridData c10spy [] []).length = 301 := by
      rw [fetchHybridData_length, hplen]
    have hlast : (fetchHybridData c10spy [] []).getLast? =
        some { toRow := rowAt SMA_PERIOD c10prices [] [] 300 2024301 90,
               Eq_2x := x2, Eq_3x := x3, Eq_Bench := xb } := by
      rw [List.getLast?_eq_get?, hdflen]
      exact hdf300
    simp only [runApp]
    rw [hlast]
    simp only [Option.map_some]
    rw [hsma]
    norm_num [hprice]
  · rw [hrow300, Option.map_some', hsig]
